import Mathlib

/-! Cockatrice: game list, phase toolbar and command dispatch.

A shallow embedding of

* `cockatrice/src/gamesmodel.cpp`: `prettyPrintSecsAgo`, `GamesModel::data`,
  `GamesModel::updateGameList`;
* `cockatrice/src/phasestoolbar.cpp`: `PhasesToolbar`;
* `servatrice/src/serversocket.h`: `ServerSocket::CommandProperties` and the
  command dispatcher declared there,

followed by the properties established about them.
-/

namespace Cockatrice

/-! ## gamesmodel.cpp, anonymous namespace -/

/-- Values of type `uint32_t` are natural numbers below `2 ^ 32`. -/
def UINT32_MOD : Nat := 4294967296

def SECS_PER_HALF_MIN : Nat := 30
def SECS_PER_MIN : Nat := 60
/-- The source writes `1600` here, next to the comment `60 * 30`. -/
def SECS_PER_HALF_HOUR : Nat := 1600
def SECS_PER_HOUR : Nat := 3600
def SECS_PER_DAY : Nat := 86400

/-- One `operator<<` call on a `std::ostringstream`: an unsigned number
(written in decimal) or a string literal. -/
inductive StreamItem where
  | uint (n : Nat)
  | text (s : String)
  deriving DecidableEq, Repr

/-- Characters a single `operator<<` appends to the stream. -/
def StreamItem.str : StreamItem → String
  | .uint n => toString n
  | .text s => s

/-- Embeds `std::ostringstream::str()`: everything written so far, in order. -/
def ostringstream_str (items : List StreamItem) : String :=
  String.join (items.map StreamItem.str)

/-- The sequence of writes `prettyPrintSecsAgo(secs)` makes to `str_stream`.
The parameter is a `uint32_t`; `mins++` and `hours++` are `uint32_t`
increments. -/
def prettyPrintSecsAgoStream (secs : Nat) : List StreamItem :=
  if secs < SECS_PER_MIN then
    [.uint secs, .text "s ago"]
  else if secs < SECS_PER_HOUR then
    let mins := secs / SECS_PER_MIN
    let mins := if secs % SECS_PER_MIN ≥ SECS_PER_HALF_MIN then (mins + 1) % UINT32_MOD else mins
    [.uint mins, .text "m ago"]
  else if secs < SECS_PER_DAY then
    let hours := secs / SECS_PER_HOUR
    let hours := if secs % SECS_PER_HOUR ≥ SECS_PER_HALF_HOUR then (hours + 1) % UINT32_MOD else hours
    [.uint hours, .text "h ago"]
  else
    [.text "a long time ago"]

/-- Embeds `prettyPrintSecsAgo`: the string built from the stream. -/
def prettyPrintSecsAgo (secs : Nat) : String :=
  ostringstream_str (prettyPrintSecsAgoStream secs)

/-- Rounding to the nearest whole unit as the documentation words it: the
quotient, plus one when the remainder is at least half a unit. -/
def roundedToNearest (secs unit : Nat) : Nat :=
  if 2 * (secs % unit) ≥ unit then secs / unit + 1 else secs / unit

/-! ## gamesmodel.cpp, `GamesModel` -/

/-- The accessors of the protobuf message class `ServerInfo_Game` that
`gamesmodel.cpp` calls, together with its `MergeFrom`. The class is generated
from `pb/serverinfo_game.proto`; `G` is the type of its values.
`creator_info_name g` is `g.creator_info().name()`, and `game_types g` lists
`g.game_types(0) ... g.game_types(g.game_types_size() - 1)`. -/
class ServerInfo_Game (G : Type) where
  room_id : G → Int
  game_id : G → Int
  start_time : G → Nat
  description : G → String
  creator_info_name : G → String
  game_types : G → List Int
  with_password : G → Bool
  spectators_need_password : G → Bool
  spectators_allowed : G → Bool
  only_buddies : G → Bool
  only_registered : G → Bool
  player_count : G → Int
  max_players : G → Int
  spectators_count : G → Int
  closed : G → Bool
  MergeFrom : G → G → G

/-- Qt's `QMap<int, V>` as an association list. -/
abbrev QMap (V : Type) := List (Int × V)

/-- Embeds `QMap::value(key)`: the stored value, or a default-constructed one. -/
def QMap.value {V : Type} (m : QMap V) (key : Int) (dflt : V) : V :=
  (List.lookup key m).getD dflt

/-- The `QVariant` values that occur in the embedded code. -/
inductive QVariant where
  | invalid
  | bool (b : Bool)
  | int (n : Int)
  | string (s : String)
  deriving DecidableEq, Repr

/-- Qt's `QModelIndex`: row, column and whether it belongs to a model. -/
structure QModelIndex where
  row : Int
  column : Int
  hasModel : Bool
  deriving DecidableEq, Repr

/-- Embeds `QModelIndex::isValid()`. -/
def QModelIndex.isValid (index : QModelIndex) : Bool :=
  decide (0 ≤ index.row) && decide (0 ≤ index.column) && index.hasModel

/-- The item data roles `GamesModel::data` tells apart: `Qt::DisplayRole`,
`Qt::UserRole`, the model's own `SORT_ROLE`, and any other role. -/
inductive ItemDataRole where
  | DisplayRole
  | UserRole
  | SORT_ROLE
  | other (n : Nat)
  deriving DecidableEq, Repr

/-- Conversion of a `uint32_t` to `int`. -/
def toInt32 (n : Nat) : Int :=
  if n % UINT32_MOD < 2147483648 then (n % UINT32_MOD : Nat) else (n % UINT32_MOD : Nat) - (UINT32_MOD : Int)

/-- Conversion of an `int` to `uint32_t`. -/
def toUInt32 (i : Int) : Nat :=
  (i % (UINT32_MOD : Int)).toNat

/-- The members of `GamesModel`. -/
structure GamesModel (G : Type) where
  gameList : List G
  rooms : QMap String
  gameTypes : QMap (QMap String)

section GamesModelCode

variable {G : Type} [ServerInfo_Game G]

open ServerInfo_Game

/-- Embeds `GamesModel::data`. `tr` is Qt's translation function, `NUM_COLS` is what
`columnCount()` returns, and `now` is the value of `time(NULL)`. After the
bounds check the row is a list index, so the `none` branch of the lookup is
never taken. -/
def GamesModel.data (tr : String → String) (NUM_COLS : Int) (now : Nat)
    (m : GamesModel G) (index : QModelIndex) (role : ItemDataRole) : QVariant :=
  if !index.isValid then .invalid
  else if role = .UserRole then .int index.row
  else if role ≠ .DisplayRole ∧ role ≠ .SORT_ROLE then .invalid
  else if index.row ≥ m.gameList.length ∨ index.column ≥ NUM_COLS then .invalid
  else
    match m.gameList[index.row.toNat]? with
    | none => .invalid
    | some g =>
      match index.column with
      | 0 => .string (m.rooms.value (room_id g) "")
      | 1 =>
        let now32 := now % UINT32_MOD
        let then32 := start_time g % UINT32_MOD
        let secs : Int := toInt32 ((now32 + UINT32_MOD - then32) % UINT32_MOD)
        match role with
        | .DisplayRole => .string (prettyPrintSecsAgo (toUInt32 secs))
        | .SORT_ROLE => .int secs
        | _ => .invalid
      | 2 => .string (description g)
      | 3 => .string (creator_info_name g)
      | 4 =>
        let gameTypeMap := m.gameTypes.value (room_id g) []
        let result := (game_types g).reverse.map (fun t => gameTypeMap.value t "")
        .string (String.intercalate ", " result)
      | 5 =>
        .string (if with_password g then
          (if spectators_need_password g || !spectators_allowed g then tr "yes"
           else tr "yes, free for spectators")
         else tr "no")
      | 6 =>
        let result := (if only_buddies g then [tr "buddies only"] else [])
          ++ (if only_registered g then [tr "reg. users only"] else [])
        .string (String.intercalate ", " result)
      | 7 => .string (toString (player_count g) ++ "/" ++ toString (max_players g))
      | 8 => if spectators_allowed g then .int (spectators_count g) else .string (tr "not allowed")
      | _ => .invalid

/-- The `for` loop of `GamesModel::updateGameList` from index `i` on, followed
by the code after the loop when no entry matched. The result is the new
`gameList`; the row signals emitted around each change carry no model data and
are left out. -/
def GamesModel.updateGameListFrom (gameList : List G) (game : G) (i : Nat) : List G :=
  if h : i < gameList.length then
    if game_id gameList[i] = game_id game then
      if closed game then gameList.eraseIdx i
      else gameList.set i (MergeFrom gameList[i] game)
    else GamesModel.updateGameListFrom gameList game (i + 1)
  else if player_count game ≤ 0 then gameList
  else gameList ++ [game]
termination_by gameList.length - i

/-- Embeds `GamesModel::updateGameList`. -/
def GamesModel.updateGameList (m : GamesModel G) (game : G) : GamesModel G :=
  { m with gameList := GamesModel.updateGameListFrom m.gameList game 0 }

end GamesModelCode

/-- The spec's wording of the password flag: `"no"` without a password,
`"yes, free for spectators"` with a password when spectators are allowed and
need no password, `"yes"` otherwise. -/
def passwordFlag (withPassword spectatorsAllowed spectatorsNeedPassword : Bool) : String :=
  if withPassword = false then "no"
  else if spectatorsAllowed = true ∧ spectatorsNeedPassword = false then "yes, free for spectators"
  else "yes"

/-- A concrete message type with protobuf's optional and repeated fields, used
to instantiate `ServerInfo_Game`: an optional field is `none` while unset. -/
structure GameMessage where
  room_id : Option Int
  game_id : Option Int
  start_time : Option Nat
  description : Option String
  creator_name : Option String
  game_types : List Int
  with_password : Option Bool
  spectators_need_password : Option Bool
  spectators_allowed : Option Bool
  only_buddies : Option Bool
  only_registered : Option Bool
  player_count : Option Int
  max_players : Option Int
  spectators_count : Option Int
  closed : Option Bool
  deriving DecidableEq, Repr

/-- Protobuf's merge on `GameMessage`: a field set in `src` overwrites, an
unset one keeps the old value, the repeated field is appended. -/
def GameMessage.MergeFrom (dst src : GameMessage) : GameMessage where
  room_id := src.room_id.orElse (fun _ => dst.room_id)
  game_id := src.game_id.orElse (fun _ => dst.game_id)
  start_time := src.start_time.orElse (fun _ => dst.start_time)
  description := src.description.orElse (fun _ => dst.description)
  creator_name := src.creator_name.orElse (fun _ => dst.creator_name)
  game_types := dst.game_types ++ src.game_types
  with_password := src.with_password.orElse (fun _ => dst.with_password)
  spectators_need_password := src.spectators_need_password.orElse (fun _ => dst.spectators_need_password)
  spectators_allowed := src.spectators_allowed.orElse (fun _ => dst.spectators_allowed)
  only_buddies := src.only_buddies.orElse (fun _ => dst.only_buddies)
  only_registered := src.only_registered.orElse (fun _ => dst.only_registered)
  player_count := src.player_count.orElse (fun _ => dst.player_count)
  max_players := src.max_players.orElse (fun _ => dst.max_players)
  spectators_count := src.spectators_count.orElse (fun _ => dst.spectators_count)
  closed := src.closed.orElse (fun _ => dst.closed)

instance : ServerInfo_Game GameMessage where
  room_id g := g.room_id.getD 0
  game_id g := g.game_id.getD 0
  start_time g := g.start_time.getD 0
  description g := g.description.getD ""
  creator_info_name g := g.creator_name.getD ""
  game_types g := g.game_types
  with_password g := g.with_password.getD false
  spectators_need_password g := g.spectators_need_password.getD false
  spectators_allowed g := g.spectators_allowed.getD false
  only_buddies g := g.only_buddies.getD false
  only_registered g := g.only_registered.getD false
  player_count g := g.player_count.getD 0
  max_players g := g.max_players.getD 0
  spectators_count g := g.spectators_count.getD 0
  closed g := g.closed.getD false
  MergeFrom := GameMessage.MergeFrom

/-- A message with only the game id, the player count and the description set. -/
def GameMessage.mk3 (id players : Int) (descr : String) : GameMessage where
  room_id := none
  game_id := some id
  start_time := none
  description := some descr
  creator_name := none
  game_types := []
  with_password := none
  spectators_need_password := none
  spectators_allowed := none
  only_buddies := none
  only_registered := none
  player_count := some players
  max_players := none
  spectators_count := none
  closed := none

/-- A message with the three password-related fields set. -/
def GameMessage.withFlags (withPassword spectatorsAllowed spectatorsNeedPassword : Bool) :
    GameMessage :=
  { GameMessage.mk3 1 1 "" with
    with_password := some withPassword
    spectators_allowed := some spectatorsAllowed
    spectators_need_password := some spectatorsNeedPassword }

/-- A model with two listed games, ids 1 and 2, for examples. -/
def sampleGamesModel : GamesModel GameMessage :=
  { gameList := [GameMessage.mk3 1 2 "first", GameMessage.mk3 2 3 "second"]
    rooms := [(0, "lobby")]
    gameTypes := [] }

/-- A model listing one password-protected game that is free for spectators. -/
def sampleFlagsModel : GamesModel GameMessage :=
  { gameList := [GameMessage.withFlags true true false]
    rooms := []
    gameTypes := [] }

/-! ## phasestoolbar.cpp -/

/-- The members of `PhaseButton` the embedded code reads or writes. The icon
is its resource path, the double-click action its name. -/
structure PhaseButton where
  icon : String
  doubleClickAction : Option String
  active : Bool
  phaseText : String
  deriving DecidableEq, Repr

/-- Embeds `PhaseButton::PhaseButton`: a new button is inactive and has no text. -/
def PhaseButton.new (icon : String) (doubleClickAction : Option String) : PhaseButton :=
  { icon := icon, doubleClickAction := doubleClickAction, active := false, phaseText := "" }

/-- Embeds `PhaseButton::setPhaseText`. -/
def PhaseButton.setPhaseText (b : PhaseButton) (phaseText : String) : PhaseButton :=
  { b with phaseText := phaseText }

/-- The setter `PhaseButton::setActive` as a plain write of `active`; the
toolbar code below takes the setter as a parameter and this is the instance
used in examples. -/
def PhaseButton.setActive (b : PhaseButton) (active : Bool) : PhaseButton :=
  { b with active := active }

/-- The call `buttonList[i]->setPhaseText(text)`. -/
def setPhaseTextAt (buttonList : List PhaseButton) (i : Nat) (text : String) : List PhaseButton :=
  match buttonList[i]? with
  | some b => buttonList.set i (b.setPhaseText text)
  | none => buttonList

/-- Embeds `PhasesToolbar::retranslateUi`, on the button list. -/
def retranslateUi (tr : String → String) (buttonList : List PhaseButton) : List PhaseButton :=
  let l := setPhaseTextAt buttonList 0 (tr "Untap step")
  let l := setPhaseTextAt l 1 (tr "Upkeep step")
  let l := setPhaseTextAt l 2 (tr "Draw step")
  let l := setPhaseTextAt l 3 (tr "First main phase")
  let l := setPhaseTextAt l 4 (tr "Beginning of combat step")
  let l := setPhaseTextAt l 5 (tr "Declare attackers step")
  let l := setPhaseTextAt l 6 (tr "Declare blockers step")
  let l := setPhaseTextAt l 7 (tr "Combat damage step")
  let l := setPhaseTextAt l 8 (tr "End of combat step")
  let l := setPhaseTextAt l 9 (tr "Second main phase")
  setPhaseTextAt l 10 (tr "End of turn step")

/-- The members of `PhasesToolbar`. -/
structure PhasesToolbar where
  buttonList : List PhaseButton
  deriving DecidableEq, Repr

/-- Embeds `PhasesToolbar::PhasesToolbar`: the eleven buttons in the order they are
streamed into `buttonList`, then `retranslateUi()`. -/
def PhasesToolbar.new (tr : String → String) : PhasesToolbar :=
  let untapButton := PhaseButton.new ":/resources/icon_phase_untap.svg" (some "aUntapAll")
  let upkeepButton := PhaseButton.new ":/resources/icon_phase_upkeep.svg" none
  let drawButton := PhaseButton.new ":/resources/icon_phase_draw.svg" (some "aDrawCard")
  let main1Button := PhaseButton.new ":/resources/icon_phase_main1.svg" none
  let combatStartButton := PhaseButton.new ":/resources/icon_phase_combat_start.svg" none
  let combatAttackersButton := PhaseButton.new ":/resources/icon_phase_combat_attackers.svg" none
  let combatBlockersButton := PhaseButton.new ":/resources/icon_phase_combat_blockers.svg" none
  let combatDamageButton := PhaseButton.new ":/resources/icon_phase_combat_damage.svg" none
  let combatEndButton := PhaseButton.new ":/resources/icon_phase_combat_end.svg" none
  let main2Button := PhaseButton.new ":/resources/icon_phase_main2.svg" none
  let cleanupButton := PhaseButton.new ":/resources/icon_phase_cleanup.svg" none
  let buttonList := [untapButton, upkeepButton, drawButton, main1Button, combatStartButton,
    combatAttackersButton, combatBlockersButton, combatDamageButton, combatEndButton,
    main2Button, cleanupButton]
  { buttonList := retranslateUi tr buttonList }

/-- The `for` loop of `PhasesToolbar::setActivePhase` from index `i` on.
`setActive` is `PhaseButton::setActive`. -/
def setActivePhaseFrom (setActive : PhaseButton → Bool → PhaseButton) (phase : Int)
    (buttonList : List PhaseButton) (i : Nat) : List PhaseButton :=
  if h : i < buttonList.length then
    setActivePhaseFrom setActive phase
      (buttonList.set i (setActive buttonList[i] (decide ((i : Int) = phase)))) (i + 1)
  else buttonList
termination_by buttonList.length - i
decreasing_by simp only [List.length_set]; omega

/-- Embeds `PhasesToolbar::setActivePhase`. -/
def PhasesToolbar.setActivePhase (setActive : PhaseButton → Bool → PhaseButton)
    (t : PhasesToolbar) (phase : Int) : PhasesToolbar :=
  if phase ≥ t.buttonList.length then t
  else { buttonList := setActivePhaseFrom setActive phase t.buttonList 0 }

/-! ## serversocket.h and the dispatcher -/

/-- The enum `PlayerStatusEnum` of `serversocket.h`. -/
inductive PlayerStatusEnum where
  | StatusNormal
  | StatusSubmitDeck
  | StatusReadyStart
  | StatusPlaying
  deriving DecidableEq, Repr

/-- Qt's `QVariant::Type`, for the parameter types a command expects. -/
inductive QVariantType where
  | Invalid
  | Bool
  | Int
  | String
  deriving DecidableEq, Repr

/-- Embeds `QVariant::type()`. -/
def QVariant.type : QVariant → QVariantType
  | .invalid => .Invalid
  | .bool _ => .Bool
  | .int _ => .Int
  | .string _ => .String

/-- Modelled from the spec: `ReturnMessage::ReturnCode` is declared in
`returnmessage.h`, which is not among the sources; these are `Ok` and the
error taxonomy (7). -/
inductive ReturnCode where
  | Ok
  | AuthenticationRequired
  | UnknownCommand
  | InvalidParameters
  | NotInGame
  | GameNotStarted
  | NotAuthorizedSpectator
  | GameFull
  | WrongPassword
  | InvalidGame
  | ChannelNotFound
  | NotInChannel
  | CardNotFound
  | CounterNotFound
  | InternalInconsistency
  deriving DecidableEq, Repr

/-- Modelled from the spec: the states of the connection state machine (4.2),
`Unauthenticated → Authenticated → {Spectating | InGame(..)}`; the status
inside `InGame` is the header's `PlayerStatusEnum`. -/
inductive ConnectionState where
  | Unauthenticated
  | Authenticated
  | Spectating
  | InGame (status : PlayerStatusEnum)
  deriving DecidableEq, Repr

/-- Modelled from the spec: everything a dispatch can read or mutate, namely the
issuing connection's state-machine state and the shared registries and stores
(sessions, zones, counters, chat channels), kept abstract as `W`. -/
structure ServerState (W : Type) where
  connection : ConnectionState
  shared : W

/-- What running a command yields: the return code, the state afterwards and
the events queued for broadcast. -/
structure Outcome (W E : Type) where
  code : ReturnCode
  state : ServerState W
  broadcast : List E

/-- The struct `ServerSocket::CommandProperties` of `serversocket.h`. The handler is a
member function: it gets the parameters and the state it may mutate. -/
structure CommandProperties (W E : Type) where
  name : String
  needsLogin : Bool
  needsGame : Bool
  needsStartedGame : Bool
  allowedToSpectator : Bool
  paramTypes : List QVariantType
  handler : List QVariant → ServerState W → Outcome W E

/-- Modelled from the spec: the connection is logged in in every state but
`Unauthenticated`. -/
def ConnectionState.loggedIn : ConnectionState → Bool
  | .Unauthenticated => false
  | _ => true

/-- Modelled from the spec: the connection is in a game when it is `Spectating`
or `InGame`. -/
def ConnectionState.inGame : ConnectionState → Bool
  | .Spectating => true
  | .InGame _ => true
  | _ => false

/-- Modelled from the spec: "commands requiring a started game are rejected
unless status==Playing". -/
def ConnectionState.playing : ConnectionState → Bool
  | .InGame .StatusPlaying => true
  | _ => false

/-- Modelled from the spec: the connection takes part as a spectator. -/
def ConnectionState.spectating : ConnectionState → Bool
  | .Spectating => true
  | _ => false

/-- Modelled from the spec: the parameters have the descriptor's shape when
their count and their types, in order, are the expected ones. -/
def paramsMatch (paramTypes : List QVariantType) (params : List QVariant) : Bool :=
  decide (params.map QVariant.type = paramTypes)

/-- Modelled from the spec: `dispatch(connection, commandName, params)` (4.1),
standing for `ServerSocket::parseCommand`, whose body is not among the sources. It looks the descriptor up by name (`UnknownCommand` if absent),
validates the parameter shape (`InvalidParameters`), then the preconditions
against the connection's state (logged in, in a game, game started, spectator
allowed), each with its error, and only then runs the handler and returns its
result. -/
def dispatch {W E : Type} (commandList : List (CommandProperties W E))
    (st : ServerState W) (commandName : String) (params : List QVariant) : Outcome W E :=
  match commandList.find? (fun d => d.name == commandName) with
  | none => { code := .UnknownCommand, state := st, broadcast := [] }
  | some d =>
    if !paramsMatch d.paramTypes params then
      { code := .InvalidParameters, state := st, broadcast := [] }
    else if d.needsLogin && !st.connection.loggedIn then
      { code := .AuthenticationRequired, state := st, broadcast := [] }
    else if d.needsGame && !st.connection.inGame then
      { code := .NotInGame, state := st, broadcast := [] }
    else if d.needsStartedGame && !st.connection.playing then
      { code := .GameNotStarted, state := st, broadcast := [] }
    else if !d.allowedToSpectator && st.connection.spectating then
      { code := .NotAuthorizedSpectator, state := st, broadcast := [] }
    else d.handler params st

/-- The preconditions recorded in a descriptor, read against a connection
state: each flag that is set demands the matching condition. -/
def PreconditionsMet {W E : Type} (d : CommandProperties W E) (c : ConnectionState) : Prop :=
  (d.needsLogin = true → c ≠ .Unauthenticated) ∧
  (d.needsGame = true → c = .Spectating ∨ ∃ s, c = .InGame s) ∧
  (d.needsStartedGame = true → c = .InGame .StatusPlaying) ∧
  (d.allowedToSpectator = false → c ≠ .Spectating)

/-- A handler for examples: it moves the connection into a game as a player,
adds one to the shared counter and broadcasts the new value. -/
def joinHandler (_params : List QVariant) (st : ServerState Nat) : Outcome Nat Nat :=
  { code := .Ok
    state := { connection := .InGame .StatusNormal, shared := st.shared + 1 }
    broadcast := [st.shared + 1] }

/-- A two-command table for examples. -/
def sampleCommands : List (CommandProperties Nat Nat) :=
  [ { name := "join_game", needsLogin := true, needsGame := false, needsStartedGame := false,
      allowedToSpectator := false, paramTypes := [.Int, .String], handler := joinHandler },
    { name := "draw_cards", needsLogin := true, needsGame := true, needsStartedGame := true,
      allowedToSpectator := false, paramTypes := [.Int], handler := joinHandler } ]

/-! ## Properties of `prettyPrintSecsAgo` -/

/-- The string is the decimal count followed by the unit suffix. -/
theorem ostringstream_str_count (n : Nat) (suffix : String) :
    ostringstream_str [.uint n, .text suffix] = toString n ++ suffix := by
  simp [ostringstream_str, StreamItem.str, String.join]

/-- In the hours range the code writes the quotient, plus one when the
remainder reaches `SECS_PER_HALF_HOUR`, which is 1600. -/
theorem prettyPrintSecsAgoStream_hours (secs : Nat) (h1 : 3600 ≤ secs) (h2 : secs < 86400) :
    prettyPrintSecsAgoStream secs =
      [.uint (if 1600 ≤ secs % 3600 then secs / 3600 + 1 else secs / 3600), .text "h ago"] := by
  unfold prettyPrintSecsAgoStream
  simp only [SECS_PER_MIN, SECS_PER_HOUR, SECS_PER_DAY, SECS_PER_HALF_HOUR, UINT32_MOD]
  rw [if_neg (by omega), if_neg (by omega), if_pos h2]
  by_cases hr : 1600 ≤ secs % 3600
  · simp only [ge_iff_le, hr, if_true]
    rw [Nat.mod_eq_of_lt (by omega)]
  · simp only [ge_iff_le, hr, if_false]

/-- In the hours range the written count differs from the nearest whole hour
exactly when the remainder lies in `[1600, 1800)`. -/
theorem prettyPrintSecsAgoStream_hours_off (secs : Nat) (h1 : 3600 ≤ secs) (h2 : secs < 86400) :
    prettyPrintSecsAgoStream secs ≠ [.uint (roundedToNearest secs 3600), .text "h ago"]
      ↔ 1600 ≤ secs % 3600 ∧ secs % 3600 < 1800 := by
  rw [prettyPrintSecsAgoStream_hours secs h1 h2]
  unfold roundedToNearest
  by_cases hr : 1600 ≤ secs % 3600 <;> by_cases hr2 : 2 * (secs % 3600) ≥ 3600 <;>
    simp [hr, hr2] <;> omega

/-- C1, evaluated at 5200 s (1 h 26 min 40 s): the remainder of 1600 s is less
than 1800, so the nearest whole hour is 1, yet the code writes the count 2 and
returns "2h ago". The claim's own example, 5400 s, does print 2. -/
theorem prettyPrintSecsAgo_hours_rounds_up_at_1600 :
    prettyPrintSecsAgoStream 5200 = [.uint 2, .text "h ago"] ∧
    prettyPrintSecsAgo 5200 = "2h ago" ∧
    5200 % 3600 < 1800 ∧ roundedToNearest 5200 3600 = 1 ∧
    prettyPrintSecsAgo 5400 = "2h ago" := by
  decide

/-- C2: for 60 <= secs < 3600 the code writes the count `X` followed by
"m ago", where `X` is secs/60 rounded to the nearest whole minute: a remainder
of 30 s or more rounds up, less rounds down, so `X` is within 30 s of `secs`;
the returned string is that count followed by "m ago". -/
theorem prettyPrintSecsAgo_minutes_rounded (secs : Nat) (h1 : 60 ≤ secs) (h2 : secs < 3600) :
    ∃ X : Nat,
      prettyPrintSecsAgoStream secs = [.uint X, .text "m ago"] ∧
      prettyPrintSecsAgo secs = toString X ++ "m ago" ∧
      X = roundedToNearest secs 60 ∧
      (30 ≤ secs % 60 → X = secs / 60 + 1) ∧
      (secs % 60 < 30 → X = secs / 60) ∧
      60 * X ≤ secs + 30 ∧ secs < 60 * X + 30 := by
  have hs : prettyPrintSecsAgoStream secs =
      [.uint (roundedToNearest secs 60), .text "m ago"] := by
    unfold prettyPrintSecsAgoStream roundedToNearest
    simp only [SECS_PER_MIN, SECS_PER_HOUR, SECS_PER_HALF_MIN, UINT32_MOD]
    rw [if_neg (by omega), if_pos h2]
    by_cases hr : 30 ≤ secs % 60
    · have hr2 : 2 * (secs % 60) ≥ 60 := by omega
      simp only [ge_iff_le, hr, if_true]
      rw [if_pos hr2, Nat.mod_eq_of_lt (by omega)]
    · have hr2 : ¬ 2 * (secs % 60) ≥ 60 := by omega
      simp only [ge_iff_le, hr, if_false]
      rw [if_neg hr2]
  refine ⟨roundedToNearest secs 60, hs, ?_, rfl, ?_, ?_, ?_, ?_⟩
  · unfold prettyPrintSecsAgo
    rw [hs, ostringstream_str_count]
  · intro hr
    unfold roundedToNearest
    rw [if_pos (by omega)]
  · intro hr
    unfold roundedToNearest
    rw [if_neg (by omega)]
  · unfold roundedToNearest
    split <;> omega
  · unfold roundedToNearest
    split <;> omega

/-- C2 at 90 s: the count written is 2. -/
theorem prettyPrintSecsAgo_minutes_rounded_witness :
    ∃ X : Nat,
      prettyPrintSecsAgoStream 90 = [.uint X, .text "m ago"] ∧
      prettyPrintSecsAgo 90 = toString X ++ "m ago" ∧
      X = roundedToNearest 90 60 ∧
      (30 ≤ 90 % 60 → X = 90 / 60 + 1) ∧
      (90 % 60 < 30 → X = 90 / 60) ∧
      60 * X ≤ 90 + 30 ∧ 90 < 60 * X + 30 :=
  prettyPrintSecsAgo_minutes_rounded 90 (by decide) (by decide)

/-- C3 as stated fails: 3599 s is in the minutes range and prints the count 60,
and 86399 s is in the hours range and prints the count 24. -/
theorem prettyPrintSecsAgo_count_leaves_range :
    (60 ≤ 3599 ∧ 3599 < 3600 ∧
      prettyPrintSecsAgoStream 3599 = [.uint 60, .text "m ago"] ∧
      prettyPrintSecsAgo 3599 = "60m ago" ∧ ¬ (60 ≤ 59)) ∧
    (3600 ≤ 86399 ∧ 86399 < 86400 ∧
      prettyPrintSecsAgoStream 86399 = [.uint 24, .text "h ago"] ∧
      prettyPrintSecsAgo 86399 = "24h ago" ∧ ¬ (24 ≤ 23)) := by
  decide

/-- C3, amended: in the minutes range (60 <= secs < 3600) the printed count
`X` satisfies 1 <= X <= 60, and it is at most 59 exactly when secs < 3570; in
the hours range (3600 <= secs < 86400) the printed count satisfies
1 <= X <= 24. -/
theorem prettyPrintSecsAgo_count_range (secs : Nat) :
    (60 ≤ secs → secs < 3600 →
      ∃ X : Nat, prettyPrintSecsAgoStream secs = [.uint X, .text "m ago"] ∧
        prettyPrintSecsAgo secs = toString X ++ "m ago" ∧
        1 ≤ X ∧ X ≤ 60 ∧ (X ≤ 59 ↔ secs < 3570)) ∧
    (3600 ≤ secs → secs < 86400 →
      ∃ X : Nat, prettyPrintSecsAgoStream secs = [.uint X, .text "h ago"] ∧
        prettyPrintSecsAgo secs = toString X ++ "h ago" ∧
        1 ≤ X ∧ X ≤ 24) := by
  constructor
  · intro h1 h2
    have hs : prettyPrintSecsAgoStream secs =
        [.uint (if 30 ≤ secs % 60 then secs / 60 + 1 else secs / 60), .text "m ago"] := by
      unfold prettyPrintSecsAgoStream
      simp only [SECS_PER_MIN, SECS_PER_HOUR, SECS_PER_HALF_MIN, UINT32_MOD]
      rw [if_neg (by omega), if_pos h2]
      by_cases hr : 30 ≤ secs % 60
      · simp only [ge_iff_le, hr, if_true]
        rw [Nat.mod_eq_of_lt (by omega)]
      · simp only [ge_iff_le, hr, if_false]
    refine ⟨_, hs, ?_, ?_, ?_, ?_⟩
    · unfold prettyPrintSecsAgo
      rw [hs, ostringstream_str_count]
    · split <;> omega
    · split <;> omega
    · split <;> omega
  · intro h1 h2
    have hs := prettyPrintSecsAgoStream_hours secs h1 h2
    refine ⟨_, hs, ?_, ?_, ?_⟩
    · unfold prettyPrintSecsAgo
      rw [hs, ostringstream_str_count]
    · split <;> omega
    · split <;> omega

/-- C3, amended, at the top of both ranges: 3599 s and 86399 s. -/
theorem prettyPrintSecsAgo_count_range_witness :
    (∃ X : Nat, prettyPrintSecsAgoStream 3599 = [.uint X, .text "m ago"] ∧
        prettyPrintSecsAgo 3599 = toString X ++ "m ago" ∧
        1 ≤ X ∧ X ≤ 60 ∧ (X ≤ 59 ↔ 3599 < 3570)) ∧
    (∃ X : Nat, prettyPrintSecsAgoStream 86399 = [.uint X, .text "h ago"] ∧
        prettyPrintSecsAgo 86399 = toString X ++ "h ago" ∧
        1 ≤ X ∧ X ≤ 24) :=
  ⟨(prettyPrintSecsAgo_count_range 3599).1 (by decide) (by decide),
   (prettyPrintSecsAgo_count_range 86399).2 (by decide) (by decide)⟩

/-! ## Properties of `GamesModel` -/

section GamesModelProps

variable {G : Type} [ServerInfo_Game G]

open ServerInfo_Game

/-- From index `i` on, the loop stops at the first entry `k` whose game id is
the update's, and removes or merges that entry. -/
theorem updateGameListFrom_first_match (gameList : List G) (game : G) :
    ∀ (n i : Nat), gameList.length - i = n →
      (∃ j, i ≤ j ∧ ∃ hj : j < gameList.length, game_id gameList[j] = game_id game) →
      ∃ k, i ≤ k ∧ ∃ hk : k < gameList.length,
        game_id gameList[k] = game_id game ∧
        (∀ j, i ≤ j → j < k → ∀ hj : j < gameList.length,
          game_id gameList[j] ≠ game_id game) ∧
        GamesModel.updateGameListFrom gameList game i =
          (if closed game then gameList.eraseIdx k
           else gameList.set k (MergeFrom gameList[k] game)) := by
  intro n
  induction n with
  | zero =>
    intro i hn hex
    obtain ⟨j, hij, hj, _⟩ := hex
    omega
  | succ n ih =>
    intro i hn hex
    have hi : i < gameList.length := by omega
    by_cases hm : game_id gameList[i] = game_id game
    · refine ⟨i, Nat.le_refl i, hi, hm, ?_, ?_⟩
      · intro j h1 h2
        omega
      · rw [GamesModel.updateGameListFrom, dif_pos hi, if_pos hm]
    · have hex2 : ∃ j, i + 1 ≤ j ∧ ∃ hj : j < gameList.length,
          game_id gameList[j] = game_id game := by
        obtain ⟨j, hij, hj, hjm⟩ := hex
        refine ⟨j, ?_, hj, hjm⟩
        rcases Nat.eq_or_lt_of_le hij with heq | hlt
        · subst heq
          exact absurd hjm hm
        · exact hlt
      obtain ⟨k, hik, hk, hkm, hfirst, hres⟩ := ih (i + 1) (by omega) hex2
      refine ⟨k, by omega, hk, hkm, ?_, ?_⟩
      · intro j h1 h2 hj
        rcases Nat.eq_or_lt_of_le h1 with heq | hlt
        · subst heq
          exact hm
        · exact hfirst j hlt h2 hj
      · rw [GamesModel.updateGameListFrom, dif_pos hi, if_neg hm]
        exact hres

/-- C4: when the update is not flagged closed and its game id is that of an
entry of the list, `updateGameList` merges it in place. With `i` the first
index whose entry `old` has the update's game id: the list keeps its length,
index `i` holds `MergeFrom old game`, which depends on the old entry and the
update only and has the same game id, every other index holds what it held,
and `rooms` and `gameTypes` are untouched. The hypothesis `hmerge` is
protobuf's contract for `MergeFrom` on the `game_id` field. -/
theorem updateGameList_merges_in_place
    (hmerge : ∀ old upd : G, game_id old = game_id upd →
      game_id (MergeFrom old upd) = game_id old)
    (m : GamesModel G) (game : G) (hopen : closed game = false)
    (hmem : ∃ g, g ∈ m.gameList ∧ game_id g = game_id game) :
    ∃ (i : Nat) (old : G),
      m.gameList[i]? = some old ∧ game_id old = game_id game ∧
      (∀ j g, j < i → m.gameList[j]? = some g → game_id g ≠ game_id game) ∧
      (m.updateGameList game).gameList.length = m.gameList.length ∧
      (m.updateGameList game).gameList[i]? = some (MergeFrom old game) ∧
      game_id (MergeFrom old game) = game_id old ∧
      (∀ j, j ≠ i → (m.updateGameList game).gameList[j]? = m.gameList[j]?) ∧
      (m.updateGameList game).rooms = m.rooms ∧
      (m.updateGameList game).gameTypes = m.gameTypes := by
  obtain ⟨g, hg, hgid⟩ := hmem
  obtain ⟨j, hj, hjg⟩ := List.getElem_of_mem hg
  have hex : ∃ j, 0 ≤ j ∧ ∃ hj : j < m.gameList.length,
      game_id m.gameList[j] = game_id game :=
    ⟨j, Nat.zero_le j, hj, by rw [hjg]; exact hgid⟩
  obtain ⟨k, _, hk, hkm, hfirst, hres⟩ :=
    updateGameListFrom_first_match m.gameList game _ 0 rfl hex
  rw [hopen] at hres
  simp only [Bool.false_eq_true, if_false] at hres
  have hlist : (m.updateGameList game).gameList =
      m.gameList.set k (MergeFrom m.gameList[k] game) := hres
  refine ⟨k, m.gameList[k], List.getElem?_eq_getElem hk, hkm, ?_, ?_, ?_,
    hmerge _ _ hkm, ?_, rfl, rfl⟩
  · intro j g hjk hjg
    have hj : j < m.gameList.length := by omega
    rw [List.getElem?_eq_getElem hj] at hjg
    have hfj := hfirst j (Nat.zero_le j) hjk hj
    rw [Option.some.inj hjg] at hfj
    exact hfj
  · rw [hlist, List.length_set]
  · rw [hlist, List.getElem?_set_self hk]
  · intro j hne
    rw [hlist, List.getElem?_set_ne (Ne.symm hne)]

/-- C6: for a game `g` of the list, shown through a valid index in column 5
under the display role or the sort role, `GamesModel::data` returns the
translated password flag: "no" exactly when the game has no password, "yes,
free for spectators" exactly when it has one, allows spectators and spectators
do not need it, and "yes" in every other case. `NUM_COLS` only has to cover
column 5. -/
theorem data_password_column (tr : String → String) (NUM_COLS : Int) (now : Nat)
    (m : GamesModel G) (index : QModelIndex) (role : ItemDataRole) (g : G)
    (hcols : 5 < NUM_COLS) (hvalid : index.isValid = true) (hcol : index.column = 5)
    (hrole : role = .DisplayRole ∨ role = .SORT_ROLE)
    (hg : m.gameList[index.row.toNat]? = some g) :
    ∃ label : String,
      GamesModel.data tr NUM_COLS now m index role = .string (tr label) ∧
      label = passwordFlag (with_password g) (spectators_allowed g) (spectators_need_password g) ∧
      (label = "no" ↔ with_password g = false) ∧
      (label = "yes, free for spectators" ↔
        with_password g = true ∧ spectators_allowed g = true ∧
          spectators_need_password g = false) ∧
      (label = "yes" ↔
        with_password g = true ∧
          ¬ (spectators_allowed g = true ∧ spectators_need_password g = false)) := by
  refine ⟨passwordFlag (with_password g) (spectators_allowed g) (spectators_need_password g),
    ?_, rfl, ?_, ?_, ?_⟩
  · have hrow0 : 0 ≤ index.row := by
      simp only [QModelIndex.isValid, Bool.and_eq_true, decide_eq_true_eq] at hvalid
      exact hvalid.1.1
    have hlt : index.row.toNat < m.gameList.length := by
      rcases Nat.lt_or_ge index.row.toNat m.gameList.length with h | h
      · exact h
      · rw [List.getElem?_eq_none h] at hg
        exact absurd hg (by simp)
    have hrow : ¬ (index.row ≥ (m.gameList.length : Int) ∨ index.column ≥ NUM_COLS) := by
      omega
    have hr1 : ¬ role = .UserRole := by
      rcases hrole with h | h <;> rw [h] <;> decide
    have hr2 : ¬ (role ≠ .DisplayRole ∧ role ≠ .SORT_ROLE) := by
      rcases hrole with h | h <;> rw [h] <;> decide
    unfold GamesModel.data
    rw [hvalid]
    simp only [Bool.not_true, Bool.false_eq_true, if_false]
    rw [if_neg hr1, if_neg hr2, if_neg hrow, hg, hcol]
    simp only
    unfold passwordFlag
    cases with_password g <;> cases spectators_allowed g <;>
      cases spectators_need_password g <;> simp
  · unfold passwordFlag
    cases with_password g <;> cases spectators_allowed g <;>
      cases spectators_need_password g <;> simp
  · unfold passwordFlag
    cases with_password g <;> cases spectators_allowed g <;>
      cases spectators_need_password g <;> simp
  · unfold passwordFlag
    cases with_password g <;> cases spectators_allowed g <;>
      cases spectators_need_password g <;> simp

/-- The concrete `GameMessage.MergeFrom` keeps the game id when both messages
report the same one. -/
theorem gameMessage_MergeFrom_game_id (old upd : GameMessage)
    (h : game_id old = game_id upd) : game_id (MergeFrom old upd) = game_id old := by
  cases old
  cases upd
  rename_i r1 id1 _ _ _ _ _ _ _ _ _ _ _ _ _ r2 id2 _ _ _ _ _ _ _ _ _ _ _ _ _
  cases id2 <;> simp_all [game_id, MergeFrom, GameMessage.MergeFrom]

/-- C4 on a list with games 1 and 2 and an update for game 2. -/
theorem updateGameList_merges_in_place_witness :
    ∃ (i : Nat) (old : GameMessage),
      sampleGamesModel.gameList[i]? = some old ∧
      game_id old = game_id (GameMessage.mk3 2 4 "renamed") ∧
      (∀ j g, j < i → sampleGamesModel.gameList[j]? = some g →
        game_id g ≠ game_id (GameMessage.mk3 2 4 "renamed")) ∧
      (sampleGamesModel.updateGameList (GameMessage.mk3 2 4 "renamed")).gameList.length
        = sampleGamesModel.gameList.length ∧
      (sampleGamesModel.updateGameList (GameMessage.mk3 2 4 "renamed")).gameList[i]?
        = some (MergeFrom old (GameMessage.mk3 2 4 "renamed")) ∧
      game_id (MergeFrom old (GameMessage.mk3 2 4 "renamed")) = game_id old ∧
      (∀ j, j ≠ i →
        (sampleGamesModel.updateGameList (GameMessage.mk3 2 4 "renamed")).gameList[j]?
          = sampleGamesModel.gameList[j]?) ∧
      (sampleGamesModel.updateGameList (GameMessage.mk3 2 4 "renamed")).rooms
        = sampleGamesModel.rooms ∧
      (sampleGamesModel.updateGameList (GameMessage.mk3 2 4 "renamed")).gameTypes
        = sampleGamesModel.gameTypes :=
  updateGameList_merges_in_place gameMessage_MergeFrom_game_id sampleGamesModel
    (GameMessage.mk3 2 4 "renamed") (by decide)
    ⟨GameMessage.mk3 2 3 "second", by decide, by decide⟩

/-- C6 on a password-protected game that is free for spectators. -/
theorem data_password_column_witness :
    ∃ label : String,
      GamesModel.data id 9 1000 sampleFlagsModel ⟨0, 5, true⟩ .DisplayRole = .string (id label) ∧
      label = passwordFlag (with_password (GameMessage.withFlags true true false))
        (spectators_allowed (GameMessage.withFlags true true false))
        (spectators_need_password (GameMessage.withFlags true true false)) ∧
      (label = "no" ↔ with_password (GameMessage.withFlags true true false) = false) ∧
      (label = "yes, free for spectators" ↔
        with_password (GameMessage.withFlags true true false) = true ∧
          spectators_allowed (GameMessage.withFlags true true false) = true ∧
          spectators_need_password (GameMessage.withFlags true true false) = false) ∧
      (label = "yes" ↔
        with_password (GameMessage.withFlags true true false) = true ∧
          ¬ (spectators_allowed (GameMessage.withFlags true true false) = true ∧
            spectators_need_password (GameMessage.withFlags true true false) = false)) :=
  data_password_column id 9 1000 sampleFlagsModel ⟨0, 5, true⟩ .DisplayRole
    (GameMessage.withFlags true true false) (by decide) (by decide) rfl (Or.inl rfl) rfl

end GamesModelProps

/-! ## Properties of `PhasesToolbar` -/

/-- The loop from index `i` on keeps the length, rewrites every button at an
index `j ≥ i` to `setActive b (j == phase)` and leaves the earlier ones. -/
theorem setActivePhaseFrom_spec (setActive : PhaseButton → Bool → PhaseButton) (phase : Int) :
    ∀ (n : Nat) (l : List PhaseButton) (i : Nat), l.length - i = n →
      (setActivePhaseFrom setActive phase l i).length = l.length ∧
      ∀ j, (setActivePhaseFrom setActive phase l i)[j]? =
        if i ≤ j then l[j]?.map (fun b => setActive b (decide ((j : Int) = phase)))
        else l[j]? := by
  intro n
  induction n with
  | zero =>
    intro l i hn
    have hi : ¬ i < l.length := by omega
    rw [setActivePhaseFrom, dif_neg hi]
    refine ⟨rfl, fun j => ?_⟩
    by_cases hj : i ≤ j
    · rw [if_pos hj, List.getElem?_eq_none (by omega)]
      rfl
    · rw [if_neg hj]
  | succ n ih =>
    intro l i hn
    have hi : i < l.length := by omega
    rw [setActivePhaseFrom, dif_pos hi]
    obtain ⟨hlen, hget⟩ :=
      ih (l.set i (setActive l[i] (decide ((i : Int) = phase)))) (i + 1)
        (by rw [List.length_set]; omega)
    rw [List.length_set] at hlen
    refine ⟨hlen, fun j => ?_⟩
    rw [hget j]
    by_cases hj : i + 1 ≤ j
    · rw [if_pos hj, if_pos (by omega), List.getElem?_set_ne (by omega)]
    · rw [if_neg hj]
      by_cases hji : i = j
      · subst hji
        rw [if_pos (Nat.le_refl i), List.getElem?_set_self hi, List.getElem?_eq_getElem hi]
        rfl
      · rw [if_neg (by omega), List.getElem?_set_ne hji]

/-- The constructor streams eleven buttons into `buttonList`. -/
theorem PhasesToolbar_new_length (tr : String → String) :
    (PhasesToolbar.new tr).buttonList.length = 11 := by
  simp [PhasesToolbar.new, retranslateUi, setPhaseTextAt]

/-- After construction the button at index 0 carries the text "Untap step". -/
theorem PhasesToolbar_new_untap (tr : String → String) :
    (PhasesToolbar.new tr).buttonList[0]?.map PhaseButton.phaseText = some (tr "Untap step") := by
  simp [PhasesToolbar.new, retranslateUi, setPhaseTextAt, PhaseButton.setPhaseText]

/-- C7: on a toolbar with its 11 phase buttons, for 0 <= p < 11
`setActivePhase(p)` leaves 11 buttons, the one at index p active and every
other one inactive; for p >= 11 it changes nothing. The toolbar the
constructor builds has 11 buttons and its index 0 is the Untap step. The
hypothesis `hset` says that the flag read back after `setActive(a)` is `a`. -/
theorem setActivePhase_single_active (setActive : PhaseButton → Bool → PhaseButton)
    (hset : ∀ b a, (setActive b a).active = a) (tr : String → String)
    (t : PhasesToolbar) (hlen : t.buttonList.length = 11) (p : Int) :
    (0 ≤ p → p < 11 →
      (t.setActivePhase setActive p).buttonList.length = 11 ∧
      (∃ b, (t.setActivePhase setActive p).buttonList[p.toNat]? = some b ∧ b.active = true) ∧
      (∀ (i : Nat) (b : PhaseButton), (i : Int) ≠ p →
        (t.setActivePhase setActive p).buttonList[i]? = some b → b.active = false)) ∧
    (11 ≤ p → t.setActivePhase setActive p = t) ∧
    (PhasesToolbar.new tr).buttonList.length = 11 ∧
    (PhasesToolbar.new tr).buttonList[0]?.map PhaseButton.phaseText = some (tr "Untap step") := by
  refine ⟨?_, ?_, PhasesToolbar_new_length tr, PhasesToolbar_new_untap tr⟩
  · intro h0 h11
    obtain ⟨hl, hget⟩ := setActivePhaseFrom_spec setActive p _ t.buttonList 0 rfl
    have hnot : ¬ p ≥ (t.buttonList.length : Int) := by omega
    have hrun : (t.setActivePhase setActive p).buttonList =
        setActivePhaseFrom setActive p t.buttonList 0 := by
      unfold PhasesToolbar.setActivePhase
      rw [if_neg hnot]
    rw [hrun]
    refine ⟨by rw [hl, hlen], ?_, ?_⟩
    · have hp : p.toNat < t.buttonList.length := by omega
      refine ⟨setActive t.buttonList[p.toNat] true, ?_, hset _ _⟩
      rw [hget p.toNat, if_pos (Nat.zero_le _), List.getElem?_eq_getElem hp]
      have hpp : ((p.toNat : Nat) : Int) = p := Int.toNat_of_nonneg h0
      simp [hpp]
    · intro i b hne hb
      rw [hget i, if_pos (Nat.zero_le _)] at hb
      cases hold : t.buttonList[i]? with
      | none =>
        rw [hold] at hb
        exact absurd hb (by simp)
      | some b0 =>
        rw [hold] at hb
        simp only [Option.map_some', Option.some.injEq] at hb
        rw [← hb, hset]
        exact decide_eq_false hne
  · intro h11
    have hge : p ≥ (t.buttonList.length : Int) := by omega
    unfold PhasesToolbar.setActivePhase
    rw [if_pos hge]

/-- C7 on the toolbar the constructor builds, with the plain setter: at the
Draw step (index 2) and at the out-of-range phase 11. -/
theorem setActivePhase_single_active_witness :
    (((PhasesToolbar.new id).setActivePhase PhaseButton.setActive 2).buttonList.length = 11 ∧
      (∃ b, ((PhasesToolbar.new id).setActivePhase PhaseButton.setActive 2).buttonList[
          (2 : Int).toNat]? = some b ∧ b.active = true) ∧
      (∀ (i : Nat) (b : PhaseButton), (i : Int) ≠ 2 →
        ((PhasesToolbar.new id).setActivePhase PhaseButton.setActive 2).buttonList[i]? = some b →
        b.active = false)) ∧
    (PhasesToolbar.new id).setActivePhase PhaseButton.setActive 11 = PhasesToolbar.new id :=
  ⟨(setActivePhase_single_active PhaseButton.setActive (fun _ _ => rfl) id
      (PhasesToolbar.new id) (PhasesToolbar_new_length id) 2).1 (by decide) (by decide),
   (setActivePhase_single_active PhaseButton.setActive (fun _ _ => rfl) id
      (PhasesToolbar.new id) (PhasesToolbar_new_length id) 11).2.1 (by decide)⟩

/-! ## Properties of the dispatcher -/

/-- When the parameters have the descriptor's shape and its preconditions are
met, `dispatch` runs the handler on the state and returns its outcome. -/
theorem dispatch_runs_handler {W E : Type} (commandList : List (CommandProperties W E))
    (st : ServerState W) (commandName : String) (params : List QVariant)
    (d : CommandProperties W E)
    (hfind : commandList.find? (fun d => d.name == commandName) = some d)
    (hshape : paramsMatch d.paramTypes params = true)
    (hpre : PreconditionsMet d st.connection) :
    dispatch commandList st commandName params = d.handler params st := by
  obtain ⟨h1, h2, h3, h4⟩ := hpre
  unfold dispatch
  rw [hfind]
  simp only [hshape, Bool.not_true, Bool.false_eq_true, if_false]
  cases hc : st.connection <;> rw [hc] at h1 h2 h3 h4 <;>
    cases hl : d.needsLogin <;> cases hg : d.needsGame <;>
    cases hs : d.needsStartedGame <;> cases ha : d.allowedToSpectator <;>
    simp_all [ConnectionState.loggedIn, ConnectionState.inGame, ConnectionState.playing,
      ConnectionState.spectating]

/-- C5: when the command is in the table and its parameter shape or one of the
preconditions its descriptor records is not met, `dispatch` returns a code
other than `Ok`, the state after is the state before, and nothing is queued
for broadcast. -/
theorem dispatch_failed_check_no_mutation {W E : Type}
    (commandList : List (CommandProperties W E))
    (st : ServerState W) (commandName : String) (params : List QVariant)
    (d : CommandProperties W E)
    (hfind : commandList.find? (fun d => d.name == commandName) = some d)
    (hfail : paramsMatch d.paramTypes params = false ∨ ¬ PreconditionsMet d st.connection) :
    (dispatch commandList st commandName params).code ≠ .Ok ∧
    (dispatch commandList st commandName params).state = st ∧
    (dispatch commandList st commandName params).broadcast = [] := by
  unfold dispatch
  rw [hfind]
  by_cases hshape : paramsMatch d.paramTypes params = true
  · have hpre : ¬ PreconditionsMet d st.connection := by
      rcases hfail with h | h
      · rw [hshape] at h
        exact absurd h (by decide)
      · exact h
    simp only [hshape, Bool.not_true, Bool.false_eq_true, if_false]
    unfold PreconditionsMet at hpre
    cases hc : st.connection <;> rw [hc] at hpre <;>
      cases hl : d.needsLogin <;> cases hg : d.needsGame <;>
      cases hs : d.needsStartedGame <;> cases ha : d.allowedToSpectator <;>
      simp_all [ConnectionState.loggedIn, ConnectionState.inGame, ConnectionState.playing,
        ConnectionState.spectating]
  · simp [hshape]

/-- C5 on the sample table: an authenticated connection outside any game sends
"draw_cards", which needs a started game. -/
theorem dispatch_failed_check_no_mutation_witness :
    (dispatch sampleCommands { connection := .Authenticated, shared := 7 } "draw_cards"
        [.int 3]).code ≠ .Ok ∧
    (dispatch sampleCommands { connection := .Authenticated, shared := 7 } "draw_cards"
        [.int 3]).state = { connection := .Authenticated, shared := 7 } ∧
    (dispatch sampleCommands { connection := .Authenticated, shared := 7 } "draw_cards"
        [.int 3]).broadcast = [] :=
  dispatch_failed_check_no_mutation sampleCommands { connection := .Authenticated, shared := 7 }
    "draw_cards" [.int 3]
    { name := "draw_cards", needsLogin := true, needsGame := true, needsStartedGame := true,
      allowedToSpectator := false, paramTypes := [.Int], handler := joinHandler }
    (by simp [sampleCommands])
    (Or.inr (fun h => by
      have h2 := h.2.1 rfl
      simp at h2))

end Cockatrice
